import Mathlib

set_option linter.unusedVariables false

/-!
Verification development for the Song Management System: a shallow embedding of
the backend song controllers (create, update, delete, filter), the statistics
aggregation, and the frontend Redux slices and sagas, together with theorems
checking the specification claims against this embedding.
-/

/-- Character class used by the JavaScript string trim operation (whitespace). -/
def isJsSpace (c : Char) : Bool := c.isWhitespace

/-- Embedding of the JavaScript string trim used by the Joi rule .trim():
leading and trailing whitespace removed. -/
def jsTrim (s : String) : String :=
  ⟨((s.data.dropWhile isJsSpace).reverse.dropWhile isJsSpace).reverse⟩

/-- Embedding of the JavaScript toLowerCase (ASCII case folding). -/
def jsToLower (s : String) : String := ⟨s.data.map Char.toLower⟩

/-- A stored song document, after the backend model Song: the four text fields,
the Mongo identifier, and the two timestamps (modelled as naturals). -/
structure SongRecord where
  _id : String
  title : String
  artist : String
  album : String
  genre : String
  createdAt : Nat
  updatedAt : Nat
  deriving Repr, DecidableEq

/-- A request body for create and update: each of the four text fields may be
absent from the JSON body. -/
structure SongPayload where
  title : Option String
  artist : Option String
  album : Option String
  genre : Option String
  deriving Repr, DecidableEq

/-- The normalized payload a successful validation produces: all four fields
present and trimmed. -/
structure ValidSongData where
  title : String
  artist : String
  album : String
  genre : String
  deriving Repr, DecidableEq

/-- One field rule of songValidationSchema, after
Joi.string().trim().min(1).max(maxLen).required(): the field passes when it is
present and its trimmed value is non-empty and within the length bound. -/
def fieldOk (v : Option String) (maxLen : Nat) : Bool :=
  match v with
  | none => false
  | some s => !(jsTrim s).isEmpty && (jsTrim s).length ≤ maxLen

/-- The names of every violating field of a payload, in the schema key order
title, artist, album, genre, with the bounds 200, 100, 200, 50 taken from
songValidationSchema. -/
def violations (p : SongPayload) : List String :=
  (if fieldOk p.title 200 then [] else ["title"]) ++
  (if fieldOk p.artist 100 then [] else ["artist"]) ++
  (if fieldOk p.album 200 then [] else ["album"]) ++
  (if fieldOk p.genre 50 then [] else ["genre"])

/-- Embedding of songValidationSchema.validate(req.body). Joi checks the keys in
schema order and, under its default abortEarly behaviour, stops at the first
failing field, so the details array carries that single field; on success the
validated value has every field trimmed. -/
def songValidationSchema (p : SongPayload) : Except (List String) ValidSongData :=
  match violations p with
  | [] =>
    Except.ok
      { title := jsTrim (p.title.getD ""), artist := jsTrim (p.artist.getD ""),
        album := jsTrim (p.album.getD ""), genre := jsTrim (p.genre.getD "") }
  | f :: _ => Except.error [f]

/-- Error codes returned by the song controllers, with VALIDATION_ERROR carrying
the details field names. -/
inductive ErrCode where
  | INVALID_ID
  | VALIDATION_ERROR (details : List String)
  | SONG_NOT_FOUND
  | MISSING_PARAMETER
  deriving Repr, DecidableEq

/-- Hexadecimal digit test for the identifier regex [0-9a-fA-F]. -/
def isHexDigit (c : Char) : Bool :=
  c.isDigit || (('a' ≤ c) && (c ≤ 'f')) || (('A' ≤ c) && (c ≤ 'F'))

/-- Embedding of the controller check id.match of twenty-four hex characters. -/
def isValidObjectId (id : String) : Bool :=
  (id.length == 24) && id.data.all isHexDigit

/-- Embedding of the createSong controller: validate, then insert a new document
with a store-assigned identifier and createdAt = updatedAt = now. -/
def createSong (store : List SongRecord) (body : SongPayload) (newId : String)
    (now : Nat) : Except ErrCode (SongRecord × List SongRecord) :=
  match songValidationSchema body with
  | Except.error ds => Except.error (ErrCode.VALIDATION_ERROR ds)
  | Except.ok v =>
    let s : SongRecord :=
      { _id := newId, title := v.title, artist := v.artist, album := v.album,
        genre := v.genre, createdAt := now, updatedAt := now }
    Except.ok (s, store ++ [s])

/-- Embedding of the updateSong controller: identifier format check, then Joi
validation, then Song.findByIdAndUpdate which overwrites the four text fields of
the matching document, refreshes updatedAt, and returns the updated document,
or signals not-found. -/
def updateSong (store : List SongRecord) (id : String) (body : SongPayload)
    (now : Nat) : Except ErrCode (SongRecord × List SongRecord) :=
  if !isValidObjectId id then Except.error ErrCode.INVALID_ID
  else
    match songValidationSchema body with
    | Except.error ds => Except.error (ErrCode.VALIDATION_ERROR ds)
    | Except.ok v =>
      match store.find? (fun s => s._id == id) with
      | none => Except.error ErrCode.SONG_NOT_FOUND
      | some s =>
        let s1 : SongRecord :=
          { s with title := v.title, artist := v.artist, album := v.album,
                   genre := v.genre, updatedAt := now }
        Except.ok (s1, store.map (fun t => if t._id == id then s1 else t))

/-- Embedding of Song.findByIdAndDelete: remove the first document whose _id
matches (identifiers are unique in the store) and return it together with the
remaining store. -/
def removeById : List SongRecord → String → Option (SongRecord × List SongRecord)
  | [], _ => none
  | s :: t, id =>
    if s._id == id then some (s, t)
    else (removeById t id).map (fun dr => (dr.1, s :: dr.2))

/-- Embedding of the deleteSong controller: identifier format check, then
Song.findByIdAndDelete, with SONG_NOT_FOUND when nothing matches. -/
def deleteSong (store : List SongRecord) (id : String) :
    Except ErrCode (SongRecord × List SongRecord) :=
  if !isValidObjectId id then Except.error ErrCode.INVALID_ID
  else
    match removeById store id with
    | none => Except.error ErrCode.SONG_NOT_FOUND
    | some dr => Except.ok dr

/-- The sort key of Song.find(...).sort with createdAt descending. -/
def byCreatedAtDesc (a b : SongRecord) : Prop := b.createdAt ≤ a.createdAt

instance : DecidableRel byCreatedAtDesc := fun a b => Nat.decLe _ _

instance : IsTotal SongRecord byCreatedAtDesc :=
  ⟨fun a b => le_total b.createdAt a.createdAt⟩

instance : IsTrans SongRecord byCreatedAtDesc :=
  ⟨fun a b c h1 h2 => le_trans h2 h1⟩

/-- Embedding of the filterSongs query Song.find with the exact genre equality
filter, sorted by createdAt descending (insertion sort stands in for the stable
store sort). -/
def findByGenre (store : List SongRecord) (genre : String) : List SongRecord :=
  List.insertionSort byCreatedAtDesc (store.filter (fun s => s.genre == genre))

/-- Embedding of the filterSongs controller: the genre query parameter is either
absent (none) or present with a value, and the JavaScript guard rejects both an
absent and an empty genre before the store is consulted. -/
def filterSongs (store : List SongRecord) (genre : Option String) :
    Except ErrCode (List SongRecord) :=
  match genre with
  | none => Except.error ErrCode.MISSING_PARAMETER
  | some g =>
    if g.isEmpty then Except.error ErrCode.MISSING_PARAMETER
    else Except.ok (findByGenre store g)

/-- Substring test on character lists, used to state the spec wording of the
filter operation. -/
def containsSub (hay : List Char) (needle : List Char) : Bool :=
  match hay with
  | [] => needle.isEmpty
  | c :: t => needle.isPrefixOf (c :: t) || containsSub t needle

/-- The genre match as the SPEC words it for claim C2: case-insensitive
substring match. Written from the spec text, for comparison with the code
embedding findByGenre. -/
def genreMatchSpec (stored q : String) : Bool :=
  containsSub (jsToLower stored).data (jsToLower q).data

/-- Lexicographic comparison of character lists, total order used to state the
by-title ordering of the spec wording. -/
def charsLe : List Char → List Char → Bool
  | [], _ => true
  | _ :: _, [] => false
  | a :: as, b :: bs => if a = b then charsLe as bs else decide (a < b)

/-- Title ordering as the SPEC words it for claim C2. -/
def byTitle (a b : SongRecord) : Prop := charsLe a.title.data b.title.data = true

instance : DecidableRel byTitle := fun a b =>
  inferInstanceAs (Decidable (charsLe a.title.data b.title.data = true))

/-- The filter operation as the SPEC words it for claim C2: case-insensitive
substring match on genre, ordered by title. Written from the spec text, for
comparison with the code embedding findByGenre. -/
def findByGenreSpec (store : List SongRecord) (q : String) : List SongRecord :=
  List.insertionSort byTitle (store.filter (fun s => genreMatchSpec s.genre q))

/-- One group stage of the statistics aggregation: for every distinct key, the
number of documents carrying it. The sort-by-count stage of the pipeline only
reorders these rows and the controller folds them into a keyed object, so the
embedding keeps first-appearance order. -/
def groupCount (keys : List String) : List (String × Nat) :=
  keys.dedup.map (fun k => (k, keys.count k))

/-- The statistics object assembled by the getStatistics controller, with the
grouped maps kept as association lists of the keyed objects built by toMap. -/
structure Statistics where
  totalSongs : Nat
  totalArtists : Nat
  totalAlbums : Nat
  totalGenres : Nat
  songsByGenre : List (String × Nat)
  songsByArtist : List (String × Nat)
  albumsByArtist : List (String × Nat)
  songsByAlbum : List (String × Nat)
  deriving Repr, DecidableEq

/-- Embedding of the getStatistics aggregation facet: total count, distinct
counts of artist, album and genre, per-genre, per-artist and per-album counts,
and per-artist counts of distinct artist-album pairs. -/
def getStatistics (store : List SongRecord) : Statistics :=
  { totalSongs := store.length
    totalArtists := (store.map (fun s => s.artist)).dedup.length
    totalAlbums := (store.map (fun s => s.album)).dedup.length
    totalGenres := (store.map (fun s => s.genre)).dedup.length
    songsByGenre := groupCount (store.map (fun s => s.genre))
    songsByArtist := groupCount (store.map (fun s => s.artist))
    albumsByArtist :=
      groupCount (((store.map (fun s => (s.artist, s.album))).dedup).map (fun p => p.1))
    songsByAlbum := groupCount (store.map (fun s => s.album)) }

/-- Reading one key of the keyed object produced by toMap, with absent keys read
as zero (the reading the reactivity claims use). -/
def lookupCount (m : List (String × Nat)) (k : String) : Nat :=
  (m.lookup k).getD 0

/-- Client Mirror state of the songs slice. -/
structure SongsState where
  items : List SongRecord
  loading : Bool
  error : Option String
  selectedSong : Option SongRecord
  deriving Repr, DecidableEq

/-- Modelled from the spec: the statistics slice state. The statisticsSlice
source file is absent from the repository snapshot (only its action creators are
imported by the sagas and the store), so its state shape follows the spec
description of the Client Mirror: last-fetched statistics snapshot plus
transient loading and error flags. -/
structure StatisticsState where
  data : Option Statistics
  loading : Bool
  error : Option String
  deriving Repr, DecidableEq

/-- Reducer fetchSongsRequest of songsSlice. -/
def fetchSongsRequest (st : SongsState) : SongsState :=
  { st with loading := true, error := none }

/-- Reducer fetchSongsSuccess of songsSlice. -/
def fetchSongsSuccess (st : SongsState) (payload : List SongRecord) : SongsState :=
  { st with loading := false, items := payload }

/-- Reducer fetchSongsFailure of songsSlice. -/
def fetchSongsFailure (st : SongsState) (msg : String) : SongsState :=
  { st with loading := false, error := some msg }

/-- Reducer createSongRequest of songsSlice. -/
def createSongRequest (st : SongsState) : SongsState :=
  { st with loading := true, error := none }

/-- Reducer createSongSuccess of songsSlice: unshift puts the new record at the
head of items. -/
def createSongSuccess (st : SongsState) (payload : SongRecord) : SongsState :=
  { st with loading := false, items := payload :: st.items }

/-- Reducer createSongFailure of songsSlice. -/
def createSongFailure (st : SongsState) (msg : String) : SongsState :=
  { st with loading := false, error := some msg }

/-- Helper embedding the findIndex plus assignment idiom of updateSongSuccess:
the first element whose _id matches is replaced, everything else is kept. -/
def replaceFirstById (l : List SongRecord) (payload : SongRecord) : List SongRecord :=
  match l with
  | [] => []
  | s :: t =>
    if s._id == payload._id then payload :: t
    else s :: replaceFirstById t payload

/-- Reducer updateSongRequest of songsSlice. -/
def updateSongRequest (st : SongsState) : SongsState :=
  { st with loading := true, error := none }

/-- Reducer updateSongSuccess of songsSlice: items.findIndex on _id followed by
assignment at that index when found. -/
def updateSongSuccess (st : SongsState) (payload : SongRecord) : SongsState :=
  { st with loading := false, items := replaceFirstById st.items payload }

/-- Reducer updateSongFailure of songsSlice. -/
def updateSongFailure (st : SongsState) (msg : String) : SongsState :=
  { st with loading := false, error := some msg }

/-- Reducer deleteSongRequest of songsSlice. -/
def deleteSongRequest (st : SongsState) : SongsState :=
  { st with loading := true, error := none }

/-- Reducer deleteSongSuccess of songsSlice: items.filter keeps the records
whose _id differs from the deleted identifier. -/
def deleteSongSuccess (st : SongsState) (payload : String) : SongsState :=
  { st with loading := false, items := st.items.filter (fun song => song._id != payload) }

/-- Reducer deleteSongFailure of songsSlice. -/
def deleteSongFailure (st : SongsState) (msg : String) : SongsState :=
  { st with loading := false, error := some msg }

/-- Modelled from the spec: reducer fetchStatisticsRequest of the absent
statisticsSlice, entering the Requesting state of the statistics concern. -/
def fetchStatisticsRequest (st : StatisticsState) : StatisticsState :=
  { st with loading := true, error := none }

/-- Modelled from the spec: reducer fetchStatisticsSuccess of the absent
statisticsSlice, replacing the snapshot on a query Success. -/
def fetchStatisticsSuccess (st : StatisticsState) (payload : Statistics) :
    StatisticsState :=
  { st with loading := false, data := some payload }

/-- Modelled from the spec: reducer fetchStatisticsFailure of the absent
statisticsSlice, recording the message and leaving the snapshot unchanged. -/
def fetchStatisticsFailure (st : StatisticsState) (msg : String) : StatisticsState :=
  { st with loading := false, error := some msg }

/-- The Client Mirror: the songs slice and the statistics slice (the filters
slice holds no record data and is not needed by the claims). -/
structure Mirror where
  songs : SongsState
  statistics : StatisticsState
  deriving Repr, DecidableEq

/-- The Redux actions the claims mention, one constructor per action creator. -/
inductive ReduxAction where
  | fetchSongsRequest
  | fetchSongsSuccess (songs : List SongRecord)
  | fetchSongsFailure (msg : String)
  | createSongSuccess (song : SongRecord)
  | createSongFailure (msg : String)
  | updateSongSuccess (song : SongRecord)
  | updateSongFailure (msg : String)
  | deleteSongSuccess (id : String)
  | deleteSongFailure (msg : String)
  | fetchStatisticsRequest
  | fetchStatisticsSuccess (stats : Statistics)
  | fetchStatisticsFailure (msg : String)
  deriving Repr, DecidableEq

/-- Dispatching one action through the combined slice reducers. -/
def applyAction (m : Mirror) : ReduxAction → Mirror
  | ReduxAction.fetchSongsRequest => { m with songs := fetchSongsRequest m.songs }
  | ReduxAction.fetchSongsSuccess l => { m with songs := fetchSongsSuccess m.songs l }
  | ReduxAction.fetchSongsFailure e => { m with songs := fetchSongsFailure m.songs e }
  | ReduxAction.createSongSuccess s => { m with songs := createSongSuccess m.songs s }
  | ReduxAction.createSongFailure e => { m with songs := createSongFailure m.songs e }
  | ReduxAction.updateSongSuccess s => { m with songs := updateSongSuccess m.songs s }
  | ReduxAction.updateSongFailure e => { m with songs := updateSongFailure m.songs e }
  | ReduxAction.deleteSongSuccess i => { m with songs := deleteSongSuccess m.songs i }
  | ReduxAction.deleteSongFailure e => { m with songs := deleteSongFailure m.songs e }
  | ReduxAction.fetchStatisticsRequest =>
      { m with statistics := fetchStatisticsRequest m.statistics }
  | ReduxAction.fetchStatisticsSuccess d =>
      { m with statistics := fetchStatisticsSuccess m.statistics d }
  | ReduxAction.fetchStatisticsFailure e =>
      { m with statistics := fetchStatisticsFailure m.statistics e }

/-- Embedding of createSongSaga: the actions it dispatches for a given outcome
of the api call. -/
def createSongSaga (outcome : Except String SongRecord) : List ReduxAction :=
  match outcome with
  | Except.ok song => [ReduxAction.createSongSuccess song, ReduxAction.fetchStatisticsRequest]
  | Except.error e => [ReduxAction.createSongFailure e]

/-- Embedding of updateSongSaga: the actions it dispatches for a given outcome
of the api call. -/
def updateSongSaga (outcome : Except String SongRecord) : List ReduxAction :=
  match outcome with
  | Except.ok song => [ReduxAction.updateSongSuccess song, ReduxAction.fetchStatisticsRequest]
  | Except.error e => [ReduxAction.updateSongFailure e]

/-- Embedding of deleteSongSaga: the actions it dispatches for its request
payload (the identifier) and a given outcome of the api call. -/
def deleteSongSaga (payload : String) (outcome : Except String Unit) : List ReduxAction :=
  match outcome with
  | Except.ok _ => [ReduxAction.deleteSongSuccess payload, ReduxAction.fetchStatisticsRequest]
  | Except.error e => [ReduxAction.deleteSongFailure e]

/-- Scheduler state for the records concern of rootSaga: the generation of the
running fetchSongsSaga task (forked by takeLatest on fetchSongsRequest), the
generation of the running filterSongsSaga task (forked by takeLatest on
setGenreFilter), a fresh-generation counter, and the generations whose results
reached the Client Mirror, in application order. -/
structure RecordsSagaState where
  fetchTask : Option Nat
  filterTask : Option Nat
  nextGen : Nat
  applied : List Nat
  deriving Repr, DecidableEq

/-- Events of the records concern scheduler: the two dispatches the watchers
take, and the resolution of the api call of a given task generation. -/
inductive SagaEv where
  | fetchSongsDispatch
  | setGenreFilterDispatch (genre : Option String)
  | fetchResolves (gen : Nat)
  | filterResolves (gen : Nat)
  deriving Repr, DecidableEq

/-- One scheduler step, embedding the takeLatest semantics of rootSaga: a
dispatch cancels the running task of its own watcher and forks a fresh one; a
filter dispatch with a genre also dispatches fetchSongsRequest from inside
filterSongsSaga before its own api call, while a filter dispatch with null only
dispatches fetchSongsRequest and completes; a resolution applies its result to
the Client Mirror only when its task is still the one the watcher runs. -/
def takeLatestStep (s : RecordsSagaState) : SagaEv → RecordsSagaState
  | SagaEv.fetchSongsDispatch =>
      { s with fetchTask := some s.nextGen, nextGen := s.nextGen + 1 }
  | SagaEv.setGenreFilterDispatch g =>
      match g with
      | some _ =>
          { s with filterTask := some s.nextGen,
                   fetchTask := some (s.nextGen + 1),
                   nextGen := s.nextGen + 2 }
      | none =>
          { s with filterTask := none,
                   fetchTask := some s.nextGen,
                   nextGen := s.nextGen + 1 }
  | SagaEv.fetchResolves g =>
      if s.fetchTask = some g then
        { s with fetchTask := none, applied := s.applied ++ [g] }
      else s
  | SagaEv.filterResolves g =>
      if s.filterTask = some g then
        { s with filterTask := none, applied := s.applied ++ [g] }
      else s

/-- Running the records concern scheduler over a list of events. -/
def runSaga (s : RecordsSagaState) : List SagaEv → RecordsSagaState
  | [] => s
  | ev :: evs => runSaga (takeLatestStep s ev) evs

/-- The initial scheduler state: no running task, no applied result. -/
def initialSagaState : RecordsSagaState :=
  { fetchTask := none, filterTask := none, nextGen := 0, applied := [] }

/-- A concrete stored song used by witnesses and counterexamples. -/
def demoSong : SongRecord :=
  { _id := "507f1f77bcf86cd799439011", title := "A", artist := "X", album := "M",
    genre := "Rock", createdAt := 0, updatedAt := 0 }

/-- A second concrete stored song, same genre, later creation, later title. -/
def demoSongB : SongRecord :=
  { _id := "507f1f77bcf86cd799439012", title := "B", artist := "X", album := "M",
    genre := "Rock", createdAt := 1, updatedAt := 1 }

/-- A payload with two violating fields, used to settle claim C3. -/
def twoBadPayload : SongPayload :=
  { title := some "", artist := some "  ", album := some "ok", genre := some "ok" }

/-- An empty payload, used by the claim C5 witness. -/
def emptyPayload : SongPayload :=
  { title := none, artist := none, album := none, genre := none }

/-- Looking a key up in an association list built by pairing each key of a list
with a computed value. -/
theorem lookup_map_pair (d : List String) (f : String → Nat) (k : String) :
    List.lookup k (d.map (fun x => (x, f x))) = if k ∈ d then some (f k) else none := by
  induction d with
  | nil => rfl
  | cons b t ih =>
    simp only [List.map_cons, List.lookup]
    cases h : (k == b) with
    | true =>
      have hkb : k = b := by simpa using h
      simp [hkb]
    | false =>
      have hkb : ¬ k = b := by simpa using h
      simp [ih, hkb]

/-- Reading a key of groupCount gives the occurrence count of that key. -/
theorem lookupCount_groupCount (keys : List String) (k : String) :
    lookupCount (groupCount keys) k = keys.count k := by
  unfold lookupCount groupCount
  rw [lookup_map_pair]
  by_cases h : k ∈ keys
  · simp [List.mem_dedup, h]
  · simp [List.mem_dedup, h, List.count_eq_zero.mpr h]

/-- Keys are absent from groupCount exactly when they never occur. -/
theorem lookup_groupCount_eq_none (keys : List String) (k : String) :
    List.lookup k (groupCount keys) = none ↔ k ∉ keys := by
  unfold groupCount
  rw [lookup_map_pair]
  by_cases h : k ∈ keys <;> simp [List.mem_dedup, h]

/-- The values of groupCount sum to the number of keys. -/
theorem sum_groupCount (keys : List String) :
    ((groupCount keys).map (fun p => p.2)).sum = keys.length := by
  unfold groupCount
  rw [List.map_map]
  simpa [Function.comp] using List.sum_map_count_dedup_eq_length keys

/-- Occurrence count over a mapped list, as a filter length over the original
list. -/
theorem count_map_eq_length_filter {α : Type} (l : List α) (f : α → String)
    (k : String) :
    List.count k (l.map f) = (l.filter (fun x => f x == k)).length := by
  simp only [List.count, List.countP_map, List.countP_eq_length_filter,
    List.filter_map, List.length_map]
  rfl

/-- Claim C1: for any record set, the statistics computation returns totalSongs
equal to the number of records; totalArtists, totalAlbums and totalGenres equal
to the number of distinct artist, album and genre values; grouped maps whose
per-key value is the number of records with that key and whose values sum to
the total record count; and albumsByArtist mapping each artist to its count of
distinct artist-album pairs. -/
theorem C1_statistics_accuracy (store : List SongRecord) :
    (getStatistics store).totalSongs = store.length
    ∧ (getStatistics store).totalArtists = (store.map (fun s => s.artist)).toFinset.card
    ∧ (getStatistics store).totalAlbums = (store.map (fun s => s.album)).toFinset.card
    ∧ (getStatistics store).totalGenres = (store.map (fun s => s.genre)).toFinset.card
    ∧ ((getStatistics store).songsByGenre.map (fun p => p.2)).sum = store.length
    ∧ ((getStatistics store).songsByArtist.map (fun p => p.2)).sum = store.length
    ∧ ((getStatistics store).songsByAlbum.map (fun p => p.2)).sum = store.length
    ∧ (∀ g, lookupCount (getStatistics store).songsByGenre g
          = (store.filter (fun s => s.genre == g)).length)
    ∧ (∀ a, lookupCount (getStatistics store).songsByArtist a
          = (store.filter (fun s => s.artist == a)).length)
    ∧ (∀ al, lookupCount (getStatistics store).songsByAlbum al
          = (store.filter (fun s => s.album == al)).length)
    ∧ (∀ a, lookupCount (getStatistics store).albumsByArtist a
          = ((store.map (fun s => (s.artist, s.album))).dedup.filter
              (fun p => p.1 == a)).length) := by
  refine ⟨rfl, ?_, ?_, ?_, ?_, ?_, ?_, ?_, ?_, ?_, ?_⟩
  · simp [getStatistics, List.card_toFinset]
  · simp [getStatistics, List.card_toFinset]
  · simp [getStatistics, List.card_toFinset]
  · simp [getStatistics, sum_groupCount]
  · simp [getStatistics, sum_groupCount]
  · simp [getStatistics, sum_groupCount]
  · intro g
    simp [getStatistics, lookupCount_groupCount, count_map_eq_length_filter]
  · intro a
    simp [getStatistics, lookupCount_groupCount, count_map_eq_length_filter]
  · intro al
    simp [getStatistics, lookupCount_groupCount, count_map_eq_length_filter]
  · intro a
    simp [getStatistics, lookupCount_groupCount, count_map_eq_length_filter]

/-- Claim C10: a filter request whose genre parameter is the empty string fails
with MISSING_PARAMETER exactly as when the parameter is absent, and in both
cases the outcome does not depend on the store (the store is never queried). -/
theorem C10_empty_genre_missing_parameter (store : List SongRecord) :
    filterSongs store (some "") = Except.error ErrCode.MISSING_PARAMETER
    ∧ filterSongs store none = Except.error ErrCode.MISSING_PARAMETER
    ∧ ∀ store2 : List SongRecord,
        filterSongs store (some "") = filterSongs store2 (some "")
        ∧ filterSongs store none = filterSongs store2 none := by
  refine ⟨rfl, rfl, fun store2 => ⟨rfl, rfl⟩⟩

/-- Deleting by identifier decomposes the store: the original store is a
permutation of the deleted record consed onto the remaining store. -/
theorem removeById_perm (l : List SongRecord) (id : String) :
    ∀ (d : SongRecord) (r : List SongRecord),
      removeById l id = some (d, r) → l.Perm (d :: r) := by
  induction l with
  | nil => intro d r h; simp [removeById] at h
  | cons s t ih =>
    intro d r h
    by_cases hs : (s._id == id) = true
    · rw [removeById, if_pos hs] at h
      have h2 : (s, t) = (d, r) := by injection h
      have hd : s = d := congrArg Prod.fst h2
      have hr : t = r := congrArg Prod.snd h2
      subst hd; subst hr
      exact List.Perm.refl _
    · rw [removeById, if_neg hs] at h
      cases hrec : removeById t id with
      | none => rw [hrec] at h; simp at h
      | some dr =>
        obtain ⟨d2, r2⟩ := dr
        rw [hrec] at h
        simp only [Option.map_some'] at h
        have h2 : (d2, s :: r2) = (d, r) := by injection h
        have hd : d2 = d := congrArg Prod.fst h2
        have hr : s :: r2 = r := congrArg Prod.snd h2
        have ht : t.Perm (d2 :: r2) := ih d2 r2 hrec
        have hall : (s :: t).Perm (d2 :: s :: r2) :=
          (ht.cons s).trans (List.Perm.swap d2 s r2)
        rw [hd, hr] at hall
        exact hall

/-- Claim C8: inserting a record with genre G raises the recomputed per-genre
count at G by exactly one (absent keys reading as zero), and deleting a record
with genre G lowers it by exactly one, the key becoming absent when the count
reaches zero. -/
theorem C8_statistics_reactivity :
    (∀ (s : SongRecord) (l : List SongRecord),
        lookupCount (getStatistics (s :: l)).songsByGenre s.genre
          = lookupCount (getStatistics l).songsByGenre s.genre + 1)
    ∧ (∀ (l : List SongRecord) (id : String) (d : SongRecord) (r : List SongRecord),
        removeById l id = some (d, r) →
          lookupCount (getStatistics l).songsByGenre d.genre
            = lookupCount (getStatistics r).songsByGenre d.genre + 1
          ∧ (lookupCount (getStatistics r).songsByGenre d.genre = 0 →
              List.lookup d.genre (getStatistics r).songsByGenre = none)) := by
  constructor
  · intro s l
    simp only [getStatistics, lookupCount_groupCount, List.map_cons]
    exact List.count_cons_self _ _
  · intro l id d r h
    have hp := removeById_perm l id d r h
    have hmap : (l.map (fun s => s.genre)).Perm ((d :: r).map (fun s => s.genre)) :=
      hp.map _
    constructor
    · simp only [getStatistics, lookupCount_groupCount]
      rw [hmap.count_eq]
      simp only [List.map_cons]
      exact List.count_cons_self _ _
    · intro h0
      have hcnt : List.count d.genre (r.map (fun s => s.genre)) = 0 := by
        simpa [getStatistics, lookupCount_groupCount] using h0
      have hnotin : d.genre ∉ r.map (fun s => s.genre) := List.count_eq_zero.mp hcnt
      exact (lookup_groupCount_eq_none _ _).mpr hnotin

/-- Witness for claim C8 at a one-record store, discharging the removeById
hypothesis at a concrete input. -/
theorem C8_witness :
    lookupCount (getStatistics [demoSong]).songsByGenre demoSong.genre
      = lookupCount (getStatistics ([] : List SongRecord)).songsByGenre demoSong.genre + 1
    ∧ (lookupCount (getStatistics ([] : List SongRecord)).songsByGenre demoSong.genre = 0 →
        List.lookup demoSong.genre
          (getStatistics ([] : List SongRecord)).songsByGenre = none) :=
  C8_statistics_reactivity.2 [demoSong] demoSong._id demoSong [] (by decide)

/-- Counterexample for claim C2: the code path matches the genre exactly and
case-sensitively and orders by creation time, while the claim asks for a
case-insensitive substring match ordered by title. At the one-record store the
query rock returns nothing although the spec wording matches Rock; at the
two-record store the code orders newest-first while the spec wording orders by
title. -/
theorem C2_counterexample :
    filterSongs [demoSong] (some "rock") = Except.ok []
    ∧ genreMatchSpec demoSong.genre "rock" = true
    ∧ findByGenreSpec [demoSong] "rock" = [demoSong]
    ∧ filterSongs [demoSong, demoSongB] (some "Rock")
        = Except.ok [demoSongB, demoSong]
    ∧ findByGenreSpec [demoSong, demoSongB] "Rock" = [demoSong, demoSongB] := by
  refine ⟨rfl, by decide, by decide, rfl, by decide⟩

/-- Claim C2 as amended: for a present non-empty genre parameter, the filter
operation returns exactly the stored records whose genre equals the parameter
exactly (case-sensitively), ordered by createdAt descending. -/
theorem C2_amended (store : List SongRecord) (g : String) (hg : g.isEmpty = false) :
    filterSongs store (some g) = Except.ok (findByGenre store g)
    ∧ (findByGenre store g).Perm (store.filter (fun s => s.genre == g))
    ∧ List.Sorted byCreatedAtDesc (findByGenre store g)
    ∧ (∀ s, s ∈ findByGenre store g ↔ s ∈ store ∧ s.genre = g) := by
  refine ⟨by simp [filterSongs, hg], List.perm_insertionSort _ _,
    List.sorted_insertionSort _ _, ?_⟩
  intro s
  unfold findByGenre
  rw [(List.perm_insertionSort byCreatedAtDesc _).mem_iff, List.mem_filter]
  simp

/-- Witness for claim C2 as amended, at a one-record store and the genre Rock. -/
theorem C2_witness :
    filterSongs [demoSong] (some "Rock") = Except.ok (findByGenre [demoSong] "Rock")
    ∧ (findByGenre [demoSong] "Rock").Perm
        ([demoSong].filter (fun s => s.genre == "Rock"))
    ∧ List.Sorted byCreatedAtDesc (findByGenre [demoSong] "Rock")
    ∧ (∀ s, s ∈ findByGenre [demoSong] "Rock" ↔ s ∈ [demoSong] ∧ s.genre = "Rock") :=
  C2_amended [demoSong] "Rock" (by decide)

/-- Counterexample for claim C3: with both the title and the artist violating
(empty after trimming), the Joi validation failure reports only the first
violating field, so the details do not contain an entry for artist. -/
theorem C3_counterexample :
    songValidationSchema twoBadPayload = Except.error ["title"]
    ∧ fieldOk twoBadPayload.artist 100 = false
    ∧ "artist" ∉ (["title"] : List String) := by
  refine ⟨rfl, by decide, by decide⟩

/-- Claim C3 as amended: a validation failure carries exactly one details
entry, the first violating field in the schema key order title, artist, album,
genre (the Joi default abortEarly behaviour), not one entry per violating
field. -/
theorem C3_amended (p : SongPayload) (ds : List String)
    (h : songValidationSchema p = Except.error ds) :
    ds.length = 1
    ∧ (ds = ["title"] ↔ fieldOk p.title 200 = false)
    ∧ (ds = ["artist"] ↔ (fieldOk p.title 200 = true ∧ fieldOk p.artist 100 = false))
    ∧ (ds = ["album"] ↔ (fieldOk p.title 200 = true ∧ fieldOk p.artist 100 = true
        ∧ fieldOk p.album 200 = false))
    ∧ (ds = ["genre"] ↔ (fieldOk p.title 200 = true ∧ fieldOk p.artist 100 = true
        ∧ fieldOk p.album 200 = true ∧ fieldOk p.genre 50 = false)) := by
  unfold songValidationSchema violations at h
  cases h1 : fieldOk p.title 200 <;> cases h2 : fieldOk p.artist 100 <;>
    cases h3 : fieldOk p.album 200 <;> cases h4 : fieldOk p.genre 50 <;>
    rw [h1, h2, h3, h4] at h <;> simp at h <;> subst h <;>
    simp [h1, h2, h3, h4]

/-- Witness for claim C3 as amended, at the concrete two-violation payload. -/
theorem C3_witness :
    (["title"] : List String).length = 1
    ∧ ((["title"] : List String) = ["title"] ↔ fieldOk twoBadPayload.title 200 = false)
    ∧ ((["title"] : List String) = ["artist"]
        ↔ (fieldOk twoBadPayload.title 200 = true
            ∧ fieldOk twoBadPayload.artist 100 = false))
    ∧ ((["title"] : List String) = ["album"]
        ↔ (fieldOk twoBadPayload.title 200 = true
            ∧ fieldOk twoBadPayload.artist 100 = true
            ∧ fieldOk twoBadPayload.album 200 = false))
    ∧ ((["title"] : List String) = ["genre"]
        ↔ (fieldOk twoBadPayload.title 200 = true
            ∧ fieldOk twoBadPayload.artist 100 = true
            ∧ fieldOk twoBadPayload.album 200 = true
            ∧ fieldOk twoBadPayload.genre 50 = false)) :=
  C3_amended twoBadPayload ["title"] rfl

/-- Mapping a conditional replacement over a list with no matching element
leaves it unchanged. -/
theorem map_id_of_no_match (t : List SongRecord) (p : SongRecord)
    (h : ∀ s ∈ t, (s._id == p._id) = false) :
    t.map (fun s => if s._id == p._id then p else s) = t := by
  induction t with
  | nil => rfl
  | cons a u ih =>
    simp only [List.map_cons]
    rw [h a (by simp), ih (fun s hs => h s (by simp [hs]))]
    simp

/-- Under unique identifiers, replacing the first matching element agrees with
replacing every matching element in place. -/
theorem replaceFirstById_eq_map (l : List SongRecord) (p : SongRecord)
    (h : (l.map (fun s => s._id)).Nodup) :
    replaceFirstById l p = l.map (fun s => if s._id == p._id then p else s) := by
  induction l with
  | nil => rfl
  | cons a t ih =>
    simp only [List.map_cons, List.nodup_cons] at h
    obtain ⟨ha, ht⟩ := h
    by_cases hm : (a._id == p._id) = true
    · have hid : a._id = p._id := by simpa using hm
      have hnone : ∀ s ∈ t, (s._id == p._id) = false := by
        intro s hs
        have hmem : s._id ∈ t.map (fun s2 => s2._id) := List.mem_map_of_mem _ hs
        by_contra hc
        have hsp : s._id = p._id := by simpa using hc
        exact ha (by rw [show a._id = s._id from hid.trans hsp.symm]; exact hmem)
      rw [replaceFirstById, if_pos hm, List.map_cons, if_pos hm,
        map_id_of_no_match t p hnone]
    · rw [replaceFirstById, if_neg hm, List.map_cons, if_neg hm, ih ht]

/-- Claim C4: on a create Success the returned record is consed onto the items
left in place; on an update Success, under unique identifiers, exactly the item
with the matching identifier is replaced in its position; on a delete Success
exactly the items with the deleted identifier are removed, the others kept in
order. -/
theorem C4_mirror_mutations (st : SongsState) (p : SongRecord) (id : String) :
    (createSongSuccess st p).items = p :: st.items
    ∧ ((st.items.map (fun s => s._id)).Nodup →
        (updateSongSuccess st p).items
          = st.items.map (fun s => if s._id == p._id then p else s))
    ∧ (deleteSongSuccess st id).items = st.items.filter (fun s => s._id != id)
    ∧ (∀ s, s ∈ (deleteSongSuccess st id).items ↔ s ∈ st.items ∧ s._id ≠ id) := by
  refine ⟨rfl, ?_, rfl, ?_⟩
  · intro h
    exact replaceFirstById_eq_map st.items p h
  · intro s
    simp [deleteSongSuccess, List.mem_filter]

/-- Witness for claim C4, discharging the unique-identifier hypothesis at a
concrete one-record mirror. -/
theorem C4_witness :
    (updateSongSuccess { items := [demoSong], loading := false, error := none,
                         selectedSong := none } demoSongB).items
      = [demoSong].map (fun s => if s._id == demoSongB._id then demoSongB else s) :=
  (C4_mirror_mutations { items := [demoSong], loading := false, error := none,
                         selectedSong := none } demoSongB "x").2.1 (by decide)

/-- Claim C5: update failures are decided in the order INVALID_ID (identifier
not 24 hex characters, regardless of payload), then VALIDATION_ERROR, then
SONG_NOT_FOUND; otherwise the four text fields of the stored record are
overwritten with the validated payload, updatedAt is refreshed, identifier and
createdAt are kept, and the updated record is returned. -/
theorem C5_update_failure_order (store : List SongRecord) (id : String)
    (body : SongPayload) (now : Nat) :
    (isValidObjectId id = false →
        updateSong store id body now = Except.error ErrCode.INVALID_ID)
    ∧ (∀ ds, isValidObjectId id = true →
        songValidationSchema body = Except.error ds →
        updateSong store id body now = Except.error (ErrCode.VALIDATION_ERROR ds))
    ∧ (∀ v, isValidObjectId id = true → songValidationSchema body = Except.ok v →
        store.find? (fun s => s._id == id) = none →
        updateSong store id body now = Except.error ErrCode.SONG_NOT_FOUND)
    ∧ (∀ v s, isValidObjectId id = true → songValidationSchema body = Except.ok v →
        store.find? (fun s2 => s2._id == id) = some s →
        ∃ s1, updateSong store id body now
            = Except.ok (s1, store.map (fun t => if t._id == id then s1 else t))
          ∧ s1.title = v.title ∧ s1.artist = v.artist ∧ s1.album = v.album
          ∧ s1.genre = v.genre ∧ s1._id = s._id ∧ s1.createdAt = s.createdAt
          ∧ s1.updatedAt = now) := by
  refine ⟨?_, ?_, ?_, ?_⟩
  · intro h; simp [updateSong, h]
  · intro ds h hv; simp [updateSong, h, hv]
  · intro v h hv hf; simp [updateSong, h, hv, hf]
  · intro v s h hv hf
    refine ⟨{ s with title := v.title, artist := v.artist, album := v.album,
                     genre := v.genre, updatedAt := now },
      ?_, rfl, rfl, rfl, rfl, rfl, rfl, rfl⟩
    simp [updateSong, h, hv, hf]

/-- Witness for claim C5 at a malformed identifier, discharging the hypothesis
of the first branch at a concrete input. -/
theorem C5_witness :
    updateSong [] "nope" emptyPayload 0 = Except.error ErrCode.INVALID_ID :=
  (C5_update_failure_order [] "nope" emptyPayload 0).1 (by decide)

/-- Claim C6: each mutation saga dispatches its Success action followed by the
statistics re-fetch request on a successful api call, dispatches only its
Failure action otherwise, and the re-fetch request puts the statistics concern
into its Requesting state. -/
theorem C6_mutation_success_refetch :
    (∀ song, createSongSaga (Except.ok song)
        = [ReduxAction.createSongSuccess song, ReduxAction.fetchStatisticsRequest])
    ∧ (∀ e, createSongSaga (Except.error e) = [ReduxAction.createSongFailure e]
        ∧ ReduxAction.fetchStatisticsRequest ∉ createSongSaga (Except.error e))
    ∧ (∀ song, updateSongSaga (Except.ok song)
        = [ReduxAction.updateSongSuccess song, ReduxAction.fetchStatisticsRequest])
    ∧ (∀ e, updateSongSaga (Except.error e) = [ReduxAction.updateSongFailure e]
        ∧ ReduxAction.fetchStatisticsRequest ∉ updateSongSaga (Except.error e))
    ∧ (∀ id, deleteSongSaga id (Except.ok ())
        = [ReduxAction.deleteSongSuccess id, ReduxAction.fetchStatisticsRequest])
    ∧ (∀ id e, deleteSongSaga id (Except.error e) = [ReduxAction.deleteSongFailure e]
        ∧ ReduxAction.fetchStatisticsRequest ∉ deleteSongSaga id (Except.error e))
    ∧ (∀ m, (applyAction m ReduxAction.fetchStatisticsRequest).statistics.loading
        = true) := by
  refine ⟨fun _ => rfl, fun e => ⟨rfl, by simp [createSongSaga]⟩, fun _ => rfl,
    fun e => ⟨rfl, by simp [updateSongSaga]⟩, fun _ => rfl,
    fun id e => ⟨rfl, by simp [deleteSongSaga]⟩, fun m => rfl⟩

/-- Claim C7: every Failure transition sets the loading flag of its concern to
false and records the message, while the items list and the statistics snapshot
are identical to the pre-failure state, for each of the five failure actions. -/
theorem C7_failure_preserves_mirror (m : Mirror) (e : String) :
    ((applyAction m (ReduxAction.fetchSongsFailure e)).songs.items = m.songs.items
      ∧ (applyAction m (ReduxAction.fetchSongsFailure e)).statistics.data
          = m.statistics.data
      ∧ (applyAction m (ReduxAction.fetchSongsFailure e)).songs.loading = false
      ∧ (applyAction m (ReduxAction.fetchSongsFailure e)).songs.error = some e)
    ∧ ((applyAction m (ReduxAction.createSongFailure e)).songs.items = m.songs.items
      ∧ (applyAction m (ReduxAction.createSongFailure e)).statistics.data
          = m.statistics.data
      ∧ (applyAction m (ReduxAction.createSongFailure e)).songs.loading = false
      ∧ (applyAction m (ReduxAction.createSongFailure e)).songs.error = some e)
    ∧ ((applyAction m (ReduxAction.updateSongFailure e)).songs.items = m.songs.items
      ∧ (applyAction m (ReduxAction.updateSongFailure e)).statistics.data
          = m.statistics.data
      ∧ (applyAction m (ReduxAction.updateSongFailure e)).songs.loading = false
      ∧ (applyAction m (ReduxAction.updateSongFailure e)).songs.error = some e)
    ∧ ((applyAction m (ReduxAction.deleteSongFailure e)).songs.items = m.songs.items
      ∧ (applyAction m (ReduxAction.deleteSongFailure e)).statistics.data
          = m.statistics.data
      ∧ (applyAction m (ReduxAction.deleteSongFailure e)).songs.loading = false
      ∧ (applyAction m (ReduxAction.deleteSongFailure e)).songs.error = some e)
    ∧ ((applyAction m (ReduxAction.fetchStatisticsFailure e)).songs.items
          = m.songs.items
      ∧ (applyAction m (ReduxAction.fetchStatisticsFailure e)).statistics.data
          = m.statistics.data
      ∧ (applyAction m (ReduxAction.fetchStatisticsFailure e)).statistics.loading
          = false
      ∧ (applyAction m (ReduxAction.fetchStatisticsFailure e)).statistics.error
          = some e) :=
  ⟨⟨rfl, rfl, rfl, rfl⟩, ⟨rfl, rfl, rfl, rfl⟩, ⟨rfl, rfl, rfl, rfl⟩,
    ⟨rfl, rfl, rfl, rfl⟩, ⟨rfl, rfl, rfl, rfl⟩⟩

/-- Counterexample for claim C9: within the records concern, a filtered query
and a fetch-all query run under different watchers which do not cancel each
other. Dispatching setGenreFilter starts the filter task (generation 0), whose
saga immediately dispatches fetchSongsRequest starting a fetch-all task
(generation 1, issued while generation 0 is still requesting). The fetch result
is applied, and then the earlier filter result is also applied on arrival,
instead of being discarded as the claim requires, so applied is [1, 0] and not
[1]. -/
theorem C9_counterexample :
    (runSaga initialSagaState
        [SagaEv.setGenreFilterDispatch (some "Rock"), SagaEv.fetchResolves 1,
          SagaEv.filterResolves 0]).applied = [1, 0]
    ∧ (runSaga initialSagaState
        [SagaEv.setGenreFilterDispatch (some "Rock"), SagaEv.fetchResolves 1,
          SagaEv.filterResolves 0]).applied ≠ [1] := by
  refine ⟨by decide, by decide⟩

/-- One scheduler step preserves deadness of a generation: a generation below
the counter that no watcher runs stays unrun and unapplied. -/
theorem step_preserves_dead (s : RecordsSagaState) (g : Nat) (ev : SagaEv)
    (h1 : g < s.nextGen) (h2 : s.fetchTask ≠ some g) (h3 : s.filterTask ≠ some g)
    (h4 : g ∉ s.applied) :
    g < (takeLatestStep s ev).nextGen
    ∧ (takeLatestStep s ev).fetchTask ≠ some g
    ∧ (takeLatestStep s ev).filterTask ≠ some g
    ∧ g ∉ (takeLatestStep s ev).applied := by
  cases ev with
  | fetchSongsDispatch =>
    refine ⟨?_, ?_, ?_, ?_⟩
    · simp [takeLatestStep]; omega
    · simp [takeLatestStep]; omega
    · simpa [takeLatestStep] using h3
    · simpa [takeLatestStep] using h4
  | setGenreFilterDispatch go =>
    cases go with
    | some gg =>
      refine ⟨?_, ?_, ?_, ?_⟩
      · simp [takeLatestStep]; omega
      · simp [takeLatestStep]; omega
      · simp [takeLatestStep]; omega
      · simpa [takeLatestStep] using h4
    | none =>
      refine ⟨?_, ?_, ?_, ?_⟩
      · simp [takeLatestStep]; omega
      · simp [takeLatestStep]; omega
      · simp [takeLatestStep]
      · simpa [takeLatestStep] using h4
  | fetchResolves g2 =>
    by_cases hc : s.fetchTask = some g2
    · have hne : g ≠ g2 := fun he => h2 (he ▸ hc)
      refine ⟨?_, ?_, ?_, ?_⟩
      · simpa [takeLatestStep, hc] using h1
      · simp [takeLatestStep, hc]
      · simpa [takeLatestStep, hc] using h3
      · simp [takeLatestStep, hc, h4, hne]
    · refine ⟨?_, ?_, ?_, ?_⟩
      · simpa [takeLatestStep, hc] using h1
      · simpa [takeLatestStep, hc] using h2
      · simpa [takeLatestStep, hc] using h3
      · simpa [takeLatestStep, hc] using h4
  | filterResolves g2 =>
    by_cases hc : s.filterTask = some g2
    · have hne : g ≠ g2 := fun he => h3 (he ▸ hc)
      refine ⟨?_, ?_, ?_, ?_⟩
      · simpa [takeLatestStep, hc] using h1
      · simpa [takeLatestStep, hc] using h2
      · simp [takeLatestStep, hc]
      · simp [takeLatestStep, hc, h4, hne]
    · refine ⟨?_, ?_, ?_, ?_⟩
      · simpa [takeLatestStep, hc] using h1
      · simpa [takeLatestStep, hc] using h2
      · simpa [takeLatestStep, hc] using h3
      · simpa [takeLatestStep, hc] using h4

/-- Claim C9 as amended: latest-request-wins holds per watcher. Once a task
generation is superseded or cancelled under its own watcher (no watcher runs it
any more and the counter has passed it), its result is never applied, whatever
events follow; in particular a second dispatch of the same action type cancels
the running task of that type for good. Across the two watchers of the records
concern there is no such cancellation (see the counterexample). -/
theorem C9_latest_wins_per_watcher :
    ∀ (evs : List SagaEv) (s : RecordsSagaState) (g : Nat),
      g < s.nextGen → s.fetchTask ≠ some g → s.filterTask ≠ some g →
      g ∉ s.applied → g ∉ (runSaga s evs).applied := by
  intro evs
  induction evs with
  | nil =>
    intro s g h1 h2 h3 h4
    simpa [runSaga] using h4
  | cons ev rest ih =>
    intro s g h1 h2 h3 h4
    obtain ⟨a, b, c, d⟩ := step_preserves_dead s g ev h1 h2 h3 h4
    exact ih (takeLatestStep s ev) g a b c d

/-- Witness for claim C9 as amended: the cancelled generation 0 is not applied
when its result arrives. -/
theorem C9_witness :
    (0 : Nat) ∉ (runSaga { fetchTask := none, filterTask := none, nextGen := 1,
                           applied := [] } [SagaEv.fetchResolves 0]).applied :=
  C9_latest_wins_per_watcher [SagaEv.fetchResolves 0]
    { fetchTask := none, filterTask := none, nextGen := 1, applied := [] } 0
    (by decide) (by decide) (by decide) (by decide)

/-- Witness for claim C6 at a concrete failure message: the failure path of the
create saga does not dispatch the statistics re-fetch request. -/
theorem C6_witness :
    ReduxAction.fetchStatisticsRequest ∉ createSongSaga (Except.error "boom") :=
  (C6_mutation_success_refetch.2.1 "boom").2
